import Mathlib

/- Shallow embedding of the Project Tool Sandbox of rungen
   (src/orion1_team_project_object.py) and of its Provider Routing Table
   (src/orion1_models.py).

   POSIX paths are modelled as lists of components; the filesystem as an
   association list of file paths to contents plus a list of directory
   paths; Python exceptions as an explicit PyExn value threaded through
   Except.  Every definition is translated from the Python source; the
   single definition written from the wording of the specification is
   resolveProviderSpec, used to compare the resolver against section 4.6
   of the spec. -/

/-- Python exceptions that the modelled code can raise or catch. -/
inductive PyExn where
  | valueError (msg : String)
  | keyError (key : String)
  | isADirectoryError (path : String)
  | notADirectoryError (path : String)
  | fileExistsError (path : String)
  | fileNotFoundError (path : String)
  | notImplementedError (msg : String)
  | timeoutExpired (seconds : Nat)
deriving DecidableEq

/-- The message text of an exception, standing in for Python str(e). -/
def PyExn.str : PyExn → String
  | PyExn.valueError m => m
  | PyExn.keyError k => k
  | PyExn.isADirectoryError p => "[Errno 21] Is a directory: " ++ p
  | PyExn.notADirectoryError p => "[Errno 20] Not a directory: " ++ p
  | PyExn.fileExistsError p => "[Errno 17] File exists: " ++ p
  | PyExn.fileNotFoundError p => "[Errno 2] No such file or directory: " ++ p
  | PyExn.notImplementedError m => m
  | PyExn.timeoutExpired s => "timeout " ++ toString s

/- ------------------------------------------------------------------ -/
/- Path model: pathlib joining and Path.resolve on a symlink-free tree -/
/- ------------------------------------------------------------------ -/

/-- Split a character list at every slash, keeping empty groups. -/
def splitSlash : List Char → List (List Char)
  | [] => [[]]
  | '/' :: cs => [] :: splitSlash cs
  | c :: cs =>
    match splitSlash cs with
    | g :: gs => (c :: g) :: gs
    | [] => [[c]]

/-- Path components of a string the way pathlib keeps them: empty
    components and single dots are dropped, double dots are kept. -/
def parseRel (s : String) : List String :=
  (splitSlash s.data).filterMap (fun g =>
    if g = [] then none
    else if g = ['.'] then none
    else some (String.mk g))

/-- Whether a path string is absolute. -/
def isAbs (s : String) : Bool :=
  match s.data with
  | '/' :: _ => true
  | _ => false

/-- Pathlib join: root / rel discards root when rel is absolute. -/
def joinComps (root : List String) (rel : String) : List String :=
  if isAbs rel then parseRel rel else root ++ parseRel rel

/-- Lexical normalization of dot-dot components, which is what
    Path.resolve computes on a tree without symlinks. -/
def normComps (cs : List String) : List String :=
  cs.foldl (fun acc c => if c = ".." then acc.dropLast else acc.concat c) []

/-- Render components as an absolute POSIX path string. -/
def joinSlash : List String → String
  | [] => ""
  | [c] => c
  | c :: cs => c ++ "/" ++ joinSlash cs

/-- Render a component list as the str() of an absolute Path. -/
def compsToString (cs : List String) : String := "/" ++ joinSlash cs

/-- Python str.startswith. -/
def strStartsWith (s pre : String) : Bool := pre.data.isPrefixOf s.data

/-- Whether the first character list occurs inside the second. -/
def listInfix (needle : List Char) : List Char → Bool
  | [] => needle.isPrefixOf []
  | c :: cs => needle.isPrefixOf (c :: cs) || listInfix needle cs

/-- Python substring membership: needle in hay. -/
def containsSub (hay needle : String) : Bool := listInfix needle.data hay.data

/-- Python str.lower, on the ASCII letters the denylist uses. -/
def strLower (s : String) : String := String.mk (s.data.map Char.toLower)

/-- Python str.upper, on ASCII letters. -/
def strUpper (s : String) : String := String.mk (s.data.map Char.toUpper)

/-- Drop a leading component list, the lexical core of Path.relative_to;
    none models the ValueError thrown when the prefix does not match. -/
def stripPre : List String → List String → Option (List String)
  | [], ys => some ys
  | _ :: _, [] => none
  | x :: xs, y :: ys => if x = y then stripPre xs ys else none

/- ------------------------------------------------------------------ -/
/- Filesystem model                                                   -/
/- ------------------------------------------------------------------ -/

/-- A snapshot of the filesystem: files with their text contents and
    directories, both keyed by normalized absolute component paths. -/
structure FS where
  files : List (List String × String)
  dirs : List (List String)
deriving DecidableEq

/-- Whether a path names a file; the first association wins, so writes
    that cons a new pair shadow the old contents. -/
def FS.isFile (fs : FS) (p : List String) : Bool :=
  (fs.files.find? (fun e => e.1 == p)).isSome

/-- The contents of a file, when the path names one. -/
def FS.fileContent (fs : FS) (p : List String) : Option String :=
  (fs.files.find? (fun e => e.1 == p)).map (fun e => e.2)

/-- Whether a path names a directory. -/
def FS.isDir (fs : FS) (p : List String) : Bool := fs.dirs.contains p

/-- Path.exists: true for files and directories alike. -/
def FS.pathExists (fs : FS) (p : List String) : Bool := fs.isFile p || fs.isDir p

/-- Every path known to the filesystem, files first then directories,
    mirroring one fixed enumeration order of the directory walk. -/
def FS.entriesL (fs : FS) : List (List String) :=
  fs.files.map Prod.fst ++ fs.dirs

/- ------------------------------------------------------------------ -/
/- Result records of ProjectTools (the Python dataclasses)            -/
/- ------------------------------------------------------------------ -/

/-- Result of reading a file. -/
structure FileReadResult where
  success : Bool
  content : String
  error : String
deriving DecidableEq

/-- Result of writing a file. -/
structure FileWriteResult where
  success : Bool
  message : String
  error : String
deriving DecidableEq

/-- Result of executing a command. -/
structure CommandResult where
  success : Bool
  stdout : String
  stderr : String
  return_code : Int
  command : String
deriving DecidableEq

/-- One entry of a directory listing. -/
structure ListingEntry where
  path : String
  name : String
  is_file : Bool
  is_dir : Bool
  size : Nat
deriving DecidableEq

/-- The dictionary returned by list_files, with every key it can carry. -/
structure ListingResult where
  success : Bool
  directory : String
  pattern : String
  recursive : Bool
  files : List ListingEntry
  count : Nat
  error : String
deriving DecidableEq

/- ------------------------------------------------------------------ -/
/- ProjectTools.read_file                                             -/
/- ------------------------------------------------------------------ -/

/-- The body of the try block of ProjectTools.read_file; reading a
    directory raises IsADirectoryError. -/
def read_file_try (root : List String) (fs : FS) (file_path : String) :
    Except PyExn FileReadResult :=
  let full := normComps (joinComps root file_path)
  if strStartsWith (compsToString full) (compsToString root) then
    if fs.pathExists full then
      match fs.fileContent full with
      | some c => Except.ok (FileReadResult.mk true c "")
      | none => Except.error (PyExn.isADirectoryError (compsToString full))
    else
      Except.ok (FileReadResult.mk false "" ("File not found: " ++ file_path))
  else
    Except.ok (FileReadResult.mk false ""
      ("Access denied: Path outside project root: " ++ file_path))

/-- ProjectTools.read_file: the try body under the catch-all except
    clause, so no exception ever propagates. -/
def read_file (root : List String) (fs : FS) (file_path : String) :
    Except PyExn FileReadResult :=
  match read_file_try root fs file_path with
  | Except.ok r => Except.ok r
  | Except.error e =>
    Except.ok (FileReadResult.mk false ""
      ("Error reading file " ++ file_path ++ ": " ++ e.str))

/- ------------------------------------------------------------------ -/
/- ProjectTools.write_file                                            -/
/- ------------------------------------------------------------------ -/

/-- The body of the try block of ProjectTools.write_file.  mkdir with
    parents and exist_ok raises when an ancestor is a regular file;
    write_text raises when the target is a directory or, without
    create_dirs, when the parent directory is missing. -/
def write_file_try (root : List String) (fs : FS) (file_path content : String)
    (create_dirs : Bool) : Except PyExn (FS × FileWriteResult) :=
  let full := normComps (joinComps root file_path)
  if strStartsWith (compsToString full) (compsToString root) then
    let parent := full.dropLast
    if create_dirs && (parent.inits.any (fun q => fs.isFile q)) then
      Except.error (PyExn.notADirectoryError (compsToString parent))
    else if (!create_dirs) && (!fs.isDir parent) then
      Except.error (PyExn.fileNotFoundError (compsToString full))
    else if fs.isDir full then
      Except.error (PyExn.isADirectoryError (compsToString full))
    else
      Except.ok
        (FS.mk ((full, content) :: fs.files)
          (if create_dirs then parent.inits ++ fs.dirs else fs.dirs),
         FileWriteResult.mk true
           ("Successfully wrote " ++ toString content.length ++
            " characters to " ++ file_path) "")
  else
    Except.ok (fs, FileWriteResult.mk false ""
      ("Access denied: Path outside project root: " ++ file_path))

/-- ProjectTools.write_file: the try body under the catch-all except
    clause; on an exception the filesystem state passed back is the
    pre-call one, matching the fact that the raising branches above
    perform no write. -/
def write_file (root : List String) (fs : FS) (file_path content : String)
    (create_dirs : Bool) : Except PyExn (FS × FileWriteResult) :=
  match write_file_try root fs file_path content create_dirs with
  | Except.ok r => Except.ok r
  | Except.error e =>
    Except.ok (fs, FileWriteResult.mk false ""
      ("Error writing file " ++ file_path ++ ": " ++ e.str))

/- ------------------------------------------------------------------ -/
/- Shell-glob matching, the fnmatch semantics behind Path.glob        -/
/- ------------------------------------------------------------------ -/

/-- One token of a shell glob pattern. -/
inductive GTok where
  | star
  | qmark
  | lit (c : Char)
  | cls (negated : Bool) (members : List Char)
deriving DecidableEq

/-- Expand the a-z range form inside a character class. -/
def classMembers : List Char → List Char
  | a :: '-' :: b :: rest =>
    ((List.range (b.toNat + 1 - a.toNat)).map (fun i => Char.ofNat (a.toNat + i)))
      ++ classMembers rest
  | c :: rest => c :: classMembers rest
  | [] => []

/-- Scan for the closing bracket of a character class. -/
def findClose (acc : List Char) : List Char → Option (List Char × List Char)
  | [] => none
  | ']' :: rest => some (acc.reverse, rest)
  | c :: rest => findClose (c :: acc) rest

/-- Tokenize a glob pattern; the fuel starts at the pattern length and
    every step consumes at least one character, so it never runs out.
    An unclosed bracket is kept as a literal, as fnmatch does. -/
def tokenizeAux : Nat → List Char → List GTok
  | 0, _ => []
  | _ + 1, [] => []
  | fuel + 1, '*' :: ps => GTok.star :: tokenizeAux fuel ps
  | fuel + 1, '?' :: ps => GTok.qmark :: tokenizeAux fuel ps
  | fuel + 1, '[' :: ps =>
    let negated := ps.head? = some '!'
    let ps1 := if negated then ps.tail else ps
    let leadBracket := ps1.head? = some ']'
    let ps2 := if leadBracket then ps1.tail else ps1
    match findClose [] ps2 with
    | none => GTok.lit '[' :: tokenizeAux fuel ps
    | some (body, rest) =>
      GTok.cls negated
        ((if leadBracket then [']'] else []) ++ classMembers body)
        :: tokenizeAux fuel rest
  | fuel + 1, c :: ps => GTok.lit c :: tokenizeAux fuel ps

/-- Tokenized form of a glob pattern. -/
def tokenizeGlob (pat : String) : List GTok := tokenizeAux pat.data.length pat.data

/-- Match tokens against a name.  Every recursive call shrinks the sum
    of the two list lengths, so fuel larger than that sum suffices and
    the function is structurally recursive for the kernel. -/
def matchToksF : Nat → List GTok → List Char → Bool
  | 0, _, _ => false
  | _ + 1, [], [] => true
  | fuel + 1, GTok.star :: ts, [] => matchToksF fuel ts []
  | _ + 1, _ :: _, [] => false
  | _ + 1, [], _ :: _ => false
  | fuel + 1, GTok.star :: ts, c :: cs =>
    matchToksF fuel ts (c :: cs) || matchToksF fuel (GTok.star :: ts) cs
  | fuel + 1, GTok.qmark :: ts, _ :: cs => matchToksF fuel ts cs
  | fuel + 1, GTok.lit d :: ts, c :: cs => (d == c) && matchToksF fuel ts cs
  | fuel + 1, GTok.cls neg ms :: ts, c :: cs =>
    ((ms.contains c) != neg) && matchToksF fuel ts cs

/-- fnmatch on a single path component, as pathlib glob applies it. -/
def fnmatchName (pat name : String) : Bool :=
  let ts := tokenizeGlob pat
  matchToksF (ts.length + name.data.length + 1) ts name.data

/- ------------------------------------------------------------------ -/
/- ProjectTools.list_files                                            -/
/- ------------------------------------------------------------------ -/

/-- Pattern parts of a glob pattern as pathlib parses them: empty and
    single-dot components are dropped, and a trailing separator appends
    an empty part that selects only the directory itself. -/
def globParts (pat : String) : List String :=
  parseRel pat ++ (if pat.data.getLast? = some '/' then [""] else [])

/-- Whether a pattern part needs the wildcard selector: it holds one of
    the fnmatch magic characters. -/
def isMagicPart (p : String) : Bool :=
  p.data.any (fun c => c == '*' || c == '?' || c == '[')

/-- The guard of pathlib selector construction: a double star is only
    accepted as a whole pattern component; rglob prepends one. -/
def validGlobParts (pat : String) (recursive : Bool) : Bool :=
  !((if recursive then "**" :: globParts pat else globParts pat).any
    (fun p => !(p == "**") && containsSub p "**"))

/-- Match a selector chain against the descent below the base and the
    directory flag of the reached entry.  One part consumes one
    component through fnmatch; a double-star part consumes zero or more
    components and as a final part accepts only directories, including
    the base itself; an empty part, from a trailing separator, accepts
    only the directory reached.  A dot-dot part is matched literally
    against a name, which no entry of a normalized tree carries, while
    the precise selector of pathlib navigates it through the parent:
    patterns with dot-dot parts lie outside this model.  The fuel
    starts above the summed lengths and every call shrinks that sum,
    so it never runs out and the function stays structurally recursive
    for the kernel. -/
def matchSelF : Nat → List String → List String → Bool → Bool
  | 0, _, _, _ => false
  | _ + 1, [], [], _ => true
  | _ + 1, [], _ :: _, _ => false
  | fuel + 1, "**" :: ps, ds, isdir =>
    if ps.isEmpty then isdir
    else
      matchSelF fuel ps ds isdir ||
        (match ds with
         | [] => false
         | _ :: ds2 => matchSelF fuel ("**" :: ps) ds2 isdir)
  | _ + 1, "" :: ps, ds, isdir => ps.isEmpty && ds.isEmpty && isdir
  | _ + 1, _ :: _, [], _ => false
  | fuel + 1, p :: ps, d :: ds, isdir => fnmatchName p d && matchSelF fuel ps ds isdir

/-- The selector chain match with enough fuel. -/
def matchSel (parts ds : List String) (isdir : Bool) : Bool :=
  matchSelF (parts.length + ds.length + 1) parts ds isdir

/-- Whether the walk reaches the entry through directories: every
    strictly proper prefix of the descent names a directory, as the
    scandir traversal of the selectors guarantees on a real tree. -/
def walkChain (fs : FS) : List String → List String → Bool
  | _, [] => true
  | _, [_] => true
  | base, d :: ds => fs.isDir (base ++ [d]) && walkChain fs (base ++ [d]) ds

/-- Render a root-relative component list the way str of a relative
    Path does: the empty relative path prints as a single dot. -/
def relPathStr (rel : List String) : String :=
  if rel = [] then "." else joinSlash rel

/-- The descent suffixes of the filesystem entries that the selector
    chain of Path.rglob (a prepended double star) or Path.glob yields
    below the resolved base: pattern parts are matched component-wise
    along the descent, whose interior consists of directories. -/
def matchingDescents (fs : FS) (base : List String) (pat : String)
    (recursive : Bool) : List (List String) :=
  fs.entriesL.filterMap (fun p =>
    match stripPre base p with
    | none => none
    | some d =>
      if walkChain fs base d &&
          matchSel (if recursive then "**" :: globParts pat else globParts pat)
            d (fs.isDir p) then some d
      else none)

/-- The file_info dictionary built in the loop of list_files: path and
    name come from the unresolved joined path, the flags and st_size
    from the resolved entry; st_size counts UTF-8 bytes of the
    content. -/
def listingEntryOf (fs : FS) (base joined rel d : List String) :
    ListingEntry :=
  ListingEntry.mk (relPathStr rel) (((joined ++ d).getLast?).getD "")
    (fs.isFile (base ++ d)) (fs.isDir (base ++ d))
    (if fs.isFile (base ++ d) then
      String.utf8ByteSize ((fs.fileContent (base ++ d)).getD "") else 0)

/-- The loop of list_files: relative_to raises on the first entry whose
    path does not start with the project root. -/
def buildEntries (fs : FS) (root joined base : List String) :
    List (List String) → Except PyExn (List ListingEntry)
  | [] => Except.ok []
  | d :: ds =>
    match stripPre root (joined ++ d) with
    | none => Except.error (PyExn.valueError
        (compsToString (joined ++ d) ++ " is not in the subpath of " ++
         compsToString root))
    | some rel =>
      match buildEntries fs root joined base ds with
      | Except.ok rest => Except.ok (listingEntryOf fs base joined rel d :: rest)
      | Except.error e => Except.error e

/-- The body of the try block of ProjectTools.list_files.  The glob
    call raises ValueError on an empty pattern or on a double star
    inside a component, NotImplementedError on an absolute pattern, and
    NotADirectoryError when its first selector scans a base that is not
    a directory; all of these land in the catch-all of list_files. -/
def list_files_try (root : List String) (fs : FS)
    (directory pat : String) (recursive : Bool) :
    Except PyExn ListingResult :=
  let joined := joinComps root directory
  let resolved := normComps joined
  if strStartsWith (compsToString resolved) (compsToString root) then
    if fs.pathExists resolved then
      if pat = "" then
        Except.error (PyExn.valueError ("Unacceptable pattern: '" ++ pat ++ "'"))
      else if isAbs pat then
        Except.error (PyExn.notImplementedError
          "Non-relative patterns are unsupported")
      else if !validGlobParts pat recursive then
        Except.error (PyExn.valueError
          "Invalid pattern: '**' can only be an entire path component")
      else if !fs.isDir resolved &&
          (match (if recursive then "**" :: globParts pat
                  else globParts pat).head? with
           | some p0 => isMagicPart p0
           | none => false) then
        Except.error (PyExn.notADirectoryError (compsToString resolved))
      else
        match buildEntries fs root joined resolved
            (matchingDescents fs resolved pat recursive) with
        | Except.ok file_list =>
          Except.ok (ListingResult.mk true directory pat recursive file_list
            file_list.length "")
        | Except.error e => Except.error e
    else
      Except.ok (ListingResult.mk false "" "" false [] 0
        ("Directory not found: " ++ directory))
  else
    Except.ok (ListingResult.mk false "" "" false [] 0
      ("Access denied: Path outside project root: " ++ directory))

/-- ProjectTools.list_files: the try body under the catch-all except
    clause, so no exception ever propagates. -/
def list_files (root : List String) (fs : FS)
    (directory pat : String) (recursive : Bool) :
    Except PyExn ListingResult :=
  match list_files_try root fs directory pat recursive with
  | Except.ok r => Except.ok r
  | Except.error e =>
    Except.ok (ListingResult.mk false "" "" false [] 0
      ("Error listing files in " ++ directory ++ ": " ++ e.str))

/- ------------------------------------------------------------------ -/
/- ProjectTools.run_command                                           -/
/- ------------------------------------------------------------------ -/

/-- What the subprocess.run call would do for the given command in the
    given working directory: complete with a status and output streams,
    exceed the timeout, or raise (for example FileNotFoundError when the
    working directory does not exist). -/
inductive SpawnResult where
  | completed (returncode : Int) (stdout stderr : String)
  | timedOut
  | raised (e : PyExn)
deriving DecidableEq

/-- The denylist of ProjectTools.run_command. -/
def dangerous_commands : List String :=
  ["rm -rf", "format", "del /f", "sudo rm", "chmod 777"]

/-- Whether any denylist entry occurs in the lowercased command. -/
def dangerousHit (command : String) : Bool :=
  dangerous_commands.any (fun d => containsSub (strLower command) d)

/-- The working-directory guard of run_command: Python checks only a
    truthy cwd, so None and the empty string are exempt. -/
def cwdEscapes (root : List String) (cwd : Option String) : Bool :=
  match cwd with
  | none => false
  | some c =>
    if c == "" then false
    else !strStartsWith (compsToString (normComps (joinComps root c)))
        (compsToString root)

/-- ProjectTools.run_command, with the two except clauses folded into
    the SpawnResult match: TimeoutExpired becomes the timeout message
    and any other exception the generic one, both with return code -1.
    The second component records whether subprocess.run was reached and
    a process spawned; the denial branches answer before any spawn, so
    a false there also means the filesystem is untouched. -/
def run_command (root : List String) (command : String) (cwd : Option String)
    (timeout : Nat) (spawn : SpawnResult) : Except PyExn (CommandResult × Bool) :=
  if cwdEscapes root cwd then
    Except.ok (CommandResult.mk false ""
      ("Access denied: Working directory outside project root: " ++ cwd.getD "")
      (-1) command, false)
  else if dangerousHit command then
    Except.ok (CommandResult.mk false ""
      ("Potentially dangerous command blocked: " ++ command) (-1) command, false)
  else
    match spawn with
    | SpawnResult.completed rc out err =>
      Except.ok (CommandResult.mk (rc == 0) out err rc command, true)
    | SpawnResult.timedOut =>
      Except.ok (CommandResult.mk false ""
        ("Command timed out after " ++ toString timeout ++ " seconds")
        (-1) command, true)
    | SpawnResult.raised e =>
      Except.ok (CommandResult.mk false ""
        ("Error executing command: " ++ e.str) (-1) command, false)

/- ------------------------------------------------------------------ -/
/- ProjectTools.__init__                                              -/
/- ------------------------------------------------------------------ -/

/-- ProjectTools.__init__: resolve the supplied project_root against the
    current working directory and mkdir the workspace subdirectory with
    exist_ok but without parents; mkdir raises FileExistsError when the
    path is a regular file and FileNotFoundError when the parent is
    missing, and exist_ok swallows the error only for a directory. -/
def projectTools_init (cwd : List String) (fs : FS) (project_root : String) :
    Except PyExn (List String × FS) :=
  let root := normComps (joinComps cwd project_root)
  let ws := root ++ ["workspace"]
  if fs.isDir ws then Except.ok (root, fs)
  else if fs.isFile ws then Except.error (PyExn.fileExistsError (compsToString ws))
  else if !fs.isDir root then
    Except.error (PyExn.fileNotFoundError (compsToString ws))
  else Except.ok (root, FS.mk fs.files (ws :: fs.dirs))

/- ------------------------------------------------------------------ -/
/- Tool Surface: the AutoGen wrappers of create_file_tools            -/
/- ------------------------------------------------------------------ -/

/-- The read_file wrapper of create_file_tools: formats the result of
    the method as a string; it adds no exception handler of its own, so
    its Except type records what could propagate to the framework. -/
def tool_read_file (root : List String) (fs : FS) (file_path : String) :
    Except PyExn String :=
  match read_file root fs file_path with
  | Except.error e => Except.error e
  | Except.ok result =>
    if result.success then
      Except.ok ("File: " ++ file_path ++ "\n\n" ++ result.content)
    else
      Except.ok ("Error reading " ++ file_path ++ ": " ++ result.error)

/-- The write_file wrapper of create_file_tools; the underlying call
    uses the create_dirs default of true. -/
def tool_write_file (root : List String) (fs : FS) (file_path content : String) :
    Except PyExn String :=
  match write_file root fs file_path content true with
  | Except.error e => Except.error e
  | Except.ok r =>
    if r.2.success then Except.ok r.2.message
    else Except.ok ("Error writing " ++ file_path ++ ": " ++ r.2.error)

/-- The entries the list_files wrapper prints: the first 20 items of the
    complete list the operation returned.  Truncation happens only here,
    in the presentation layer. -/
def tool_list_files_shown (root : List String) (fs : FS)
    (directory pat : String) (recursive : Bool) : List ListingEntry :=
  match list_files root fs directory pat recursive with
  | Except.error _ => []
  | Except.ok result => if result.success then result.files.take 20 else []

/-- The list_files wrapper of create_file_tools, reduced to the header
    line plus one line per shown entry. -/
def tool_list_files (root : List String) (fs : FS)
    (directory pat : String) (recursive : Bool) : Except PyExn String :=
  match list_files root fs directory pat recursive with
  | Except.error e => Except.error e
  | Except.ok result =>
    if result.success then
      Except.ok ((tool_list_files_shown root fs directory pat recursive).foldl
        (fun acc e => acc ++ e.path ++ "\n")
        ("Directory: " ++ result.directory ++ "\nFound " ++
         toString result.count ++ " items\n"))
    else Except.ok ("Error listing files: " ++ result.error)

/-- The run_command wrapper of create_file_tools; the wrapper default
    for cwd is the dot string, passed through to the method. -/
def tool_run_command (root : List String) (command cwd : String)
    (timeout : Nat) (spawn : SpawnResult) : Except PyExn String :=
  match run_command root command (some cwd) timeout spawn with
  | Except.error e => Except.error e
  | Except.ok r =>
    Except.ok ("Command: " ++ r.1.command ++ "\nSuccess: " ++
      toString r.1.success ++ "\nReturn code: " ++ toString r.1.return_code ++
      "\n" ++ r.1.stdout ++ "\n" ++ r.1.stderr)

/- ------------------------------------------------------------------ -/
/- Provider Registry and Resolver (src/orion1_models.py)              -/
/- ------------------------------------------------------------------ -/

/-- The process environment: os.getenv. -/
def Env : Type := String → Option String

/-- One entry of the provider table of MultiProviderConfig. -/
structure ProviderEntry where
  base_url : Option String
  api_key : Option String
  models : List (String × String)
deriving DecidableEq

/-- The groq model catalog. -/
def groqModels : List (String × String) :=
  [("llama-3.3-70b-versatile", "Llama 3.3 70B - Most capable"),
   ("llama-3.1-70b-versatile", "Llama 3.1 70B - Most capable, slower"),
   ("llama-3.1-8b-instant", "Llama 3.1 8B - Fast and efficient"),
   ("mixtral-8x7b-32768", "Mixtral 8x7B - Good for complex reasoning"),
   ("gemma2-9b-it", "Gemma 2 9B - Instruction tuned")]

/-- The openai model catalog. -/
def openaiModels : List (String × String) :=
  [("gpt-4", "GPT-4 - Most capable OpenAI model"),
   ("gpt-4-turbo", "GPT-4 Turbo - Fast and capable"),
   ("gpt-3.5-turbo", "GPT-3.5 Turbo - Fast and efficient")]

/-- The moonshot model catalog. -/
def moonshotModels : List (String × String) :=
  [("moonshot-v1-8k", "Moonshot v1 8K context"),
   ("moonshot-v1-32k", "Moonshot v1 32K context"),
   ("moonshot-v1-128k", "Moonshot v1 128K context"),
   ("moonshotai/kimi-k2-instruct", "Kimi K2 Instruct model")]

/-- The deepseek model catalog. -/
def deepseekModels : List (String × String) :=
  [("deepseek-chat", "DeepSeek Chat model"),
   ("deepseek-coder", "DeepSeek Coder model"),
   ("deepseek-r1-distill-llama-70b", "DeepSeek R1 Distill Llama 70B")]

/-- The google model catalog. -/
def googleModels : List (String × String) :=
  [("gemini-1.5-pro", "Gemini 1.5 Pro - Most capable"),
   ("gemini-1.5-flash", "Gemini 1.5 Flash - Fast"),
   ("gemini-2.0-flash-exp", "Gemini 2.0 Flash Experimental"),
   ("gemini-2.5-pro", "Gemini 2.5 Pro - Latest")]

/-- self.providers of MultiProviderConfig, in insertion order; moonshot
    reuses the OPEN_AI_KEY credential as the source does. -/
def providers (env : Env) : List (String × ProviderEntry) :=
  [("groq", ProviderEntry.mk (some "https://api.groq.com/openai/v1")
      (env "GROQ_API_KEY") groqModels),
   ("openai", ProviderEntry.mk (some "https://api.openai.com/v1")
      (env "OPEN_AI_KEY") openaiModels),
   ("moonshot", ProviderEntry.mk (some "https://api.moonshot.cn/v1")
      (env "OPEN_AI_KEY") moonshotModels),
   ("deepseek", ProviderEntry.mk (some "https://api.deepseek.com/v1")
      (env "DEEPKEY_API_KEY") deepseekModels),
   ("google", ProviderEntry.mk none (env "GOOGLE_API_KEY") googleModels)]

/-- Whether a model catalog has the given model id among its keys. -/
def modelsContain (models : List (String × String)) (m : String) : Bool :=
  models.any (fun md => md.1 == m)

/-- MultiProviderConfig._detect_provider: first provider whose catalog
    holds the model id exactly, then the name-pattern heuristics, then
    the groq default. -/
def detect_provider (env : Env) (m : String) : String :=
  match (providers env).find? (fun e => modelsContain e.2.models m) with
  | some e => e.1
  | none =>
    if containsSub (strLower m) "gemini" then "google"
    else if containsSub (strLower m) "gpt" then "openai"
    else if containsSub (strLower m) "llama" || containsSub (strLower m) "mixtral"
      then "groq"
    else if containsSub (strLower m) "moonshot" || containsSub (strLower m) "kimi"
      then "moonshot"
    else if containsSub (strLower m) "deepseek" then "deepseek"
    else "groq"

/-- The provider get_client settles on: the explicit argument when one
    is given, the detected provider otherwise (its first lines). -/
def selected_provider (env : Env) (m : String) (p : Option String) : String :=
  match p with
  | some pr => pr
  | none => detect_provider env m

/-- Capability flags of a ModelInfo value. -/
structure ModelInfoFlags where
  vision : Bool
  function_calling : Bool
  json_output : Bool
  structured_output : Bool
deriving DecidableEq

/-- The arguments handed to OpenAIChatCompletionClient. -/
structure ClientCfg where
  model : String
  api_key : String
  base_url : Option String
  model_info : ModelInfoFlags
deriving DecidableEq

/-- Python truthiness of an optional credential string: None and the
    empty string are falsy. -/
def truthy : Option String → Bool
  | none => false
  | some s => s ≠ ""

/-- MultiProviderConfig._get_openai_compatible_client: a missing table
    entry raises KeyError, a falsy credential raises ValueError, and
    otherwise the client is built from the table entry. -/
def get_openai_compatible_client (env : Env) (m provider : String) :
    Except PyExn ClientCfg :=
  match (providers env).find? (fun e => e.1 == provider) with
  | none => Except.error (PyExn.keyError provider)
  | some e =>
    if truthy e.2.api_key then
      Except.ok (ClientCfg.mk m (e.2.api_key.getD "") e.2.base_url
        (ModelInfoFlags.mk false true true true))
    else
      Except.error (PyExn.valueError
        (strUpper provider ++ "_API_KEY not found in environment variables"))

/-- MultiProviderConfig._get_google_client: checks the google credential
    and routes through the fixed Gemini OpenAI-compatible endpoint. -/
def get_google_client (env : Env) (m : String) : Except PyExn ClientCfg :=
  if truthy (env "GOOGLE_API_KEY") then
    Except.ok (ClientCfg.mk m ((env "GOOGLE_API_KEY").getD "")
      (some "https://generativelanguage.googleapis.com/v1beta/openai/")
      (ModelInfoFlags.mk true true true true))
  else
    Except.error (PyExn.valueError
      "GOOGLE_API_KEY not found in environment variables")

/-- MultiProviderConfig.get_client: detect the provider when none is
    given explicitly, then dispatch to the google or OpenAI-compatible
    constructor. -/
def get_client (env : Env) (m : String) (p : Option String) :
    Except PyExn ClientCfg :=
  let provider := selected_provider env m p
  if provider == "google" then get_google_client env m
  else get_openai_compatible_client env m provider

/-- The registry credential of a provider, as stored in the table. -/
def provider_api_key (env : Env) (p : String) : Option String :=
  match (providers env).find? (fun e => e.1 == p) with
  | some e => e.2.api_key
  | none => none

/-- The model catalog of a provider as a list of model ids. -/
def modelCatalog (p : String) : List String :=
  if p == "groq" then groqModels.map Prod.fst
  else if p == "openai" then openaiModels.map Prod.fst
  else if p == "moonshot" then moonshotModels.map Prod.fst
  else if p == "deepseek" then deepseekModels.map Prod.fst
  else if p == "google" then googleModels.map Prod.fst
  else []

/-- The resolution policy as section 4.6 of the specification words it:
    scan the registry order groq, openai, moonshot, deepseek, google for
    an exact catalog match, first match wins; else apply the substring
    heuristics gemini to google, gpt to openai, llama or mixtral to
    groq, moonshot or kimi to moonshot, deepseek to deepseek, in that
    priority order, case-insensitively; else fall back to groq. -/
def resolveProviderSpec (m : String) : String :=
  match ["groq", "openai", "moonshot", "deepseek", "google"].find?
      (fun p => (modelCatalog p).any (fun n => n == m)) with
  | some p => p
  | none =>
    if containsSub (strLower m) "gemini" then "google"
    else if containsSub (strLower m) "gpt" then "openai"
    else if containsSub (strLower m) "llama" || containsSub (strLower m) "mixtral"
      then "groq"
    else if containsSub (strLower m) "moonshot" || containsSub (strLower m) "kimi"
      then "moonshot"
    else if containsSub (strLower m) "deepseek" then "deepseek"
    else "groq"

/- ------------------------------------------------------------------ -/
/- Helper lemmas                                                      -/
/- ------------------------------------------------------------------ -/

/-- C1 is false as stated: the code guards with a plain string-prefix
    test, not prefix-plus-separator.  With project root /home/proj, the
    relative path dot-dot/projX/secret canonicalizes to
    /home/projX/secret, which neither equals the root nor extends it
    with a separator, yet read_file succeeds and reads the file outside
    the root instead of returning an access-denied failure. -/
theorem c1_counterexample :
    ("/home/projX/secret" ≠ "/home/proj") ∧
    strStartsWith "/home/projX/secret" ("/home/proj" ++ "/") = false ∧
    compsToString (normComps (joinComps ["home", "proj"] "../projX/secret")) =
      "/home/projX/secret" ∧
    compsToString ["home", "proj"] = "/home/proj" ∧
    read_file ["home", "proj"]
        (FS.mk [(["home", "projX", "secret"], "token")] []) "../projX/secret" =
      Except.ok (FileReadResult.mk true "token" "") :=
  ⟨by decide, by decide, rfl, rfl, rfl⟩

/-- C1 (amended): for every relativePath whose canonicalized join with
    the project root does not have the root's path string as a plain
    string prefix, each of read_file, write_file, list_files and
    run_command (for a nonempty cwd argument) returns an access-denied
    failure and performs no filesystem I/O: the read result is the same
    for every filesystem, the write returns the filesystem unchanged,
    and the command reports return code -1 without spawning. -/
theorem c1_escape_denied (root : List String) (fs : FS)
    (rel content command pat : String) (recursive : Bool) (timeout : Nat)
    (spawn : SpawnResult)
    (h : strStartsWith (compsToString (normComps (joinComps root rel)))
        (compsToString root) = false) :
    read_file root fs rel = Except.ok (FileReadResult.mk false ""
        ("Access denied: Path outside project root: " ++ rel)) ∧
    write_file root fs rel content true = Except.ok (fs, FileWriteResult.mk false ""
        ("Access denied: Path outside project root: " ++ rel)) ∧
    list_files root fs rel pat recursive = Except.ok (ListingResult.mk false "" ""
        false [] 0 ("Access denied: Path outside project root: " ++ rel)) ∧
    (rel ≠ "" → run_command root command (some rel) timeout spawn =
      Except.ok (CommandResult.mk false ""
        ("Access denied: Working directory outside project root: " ++ rel)
        (-1) command, false)) := by
  refine ⟨?_, ?_, ?_, ?_⟩
  · simp [read_file, read_file_try, h]
  · simp [write_file, write_file_try, h]
  · simp [list_files, list_files_try, h]
  · intro hne
    simp [run_command, cwdEscapes, h, hne]

/-- C1 witness: a concrete escaping path is denied by read_file and by
    run_command. -/
theorem c1_escape_denied_witness :
    strStartsWith (compsToString (normComps (joinComps ["home", "proj"] "/etc/passwd")))
        (compsToString ["home", "proj"]) = false ∧
    read_file ["home", "proj"] (FS.mk [] []) "/etc/passwd" =
      Except.ok (FileReadResult.mk false ""
        ("Access denied: Path outside project root: " ++ "/etc/passwd")) ∧
    run_command ["home", "proj"] "ls" (some "/etc/passwd") 30
        (SpawnResult.completed 0 "" "") =
      Except.ok (CommandResult.mk false ""
        ("Access denied: Working directory outside project root: " ++ "/etc/passwd")
        (-1) "ls", false) :=
  ⟨by decide,
   (c1_escape_denied ["home", "proj"] (FS.mk [] []) "/etc/passwd" "c" "ls" "*"
      true 30 (SpawnResult.completed 0 "" "") (by decide)).1,
   (c1_escape_denied ["home", "proj"] (FS.mk [] []) "/etc/passwd" "c" "ls" "*"
      true 30 (SpawnResult.completed 0 "" "") (by decide)).2.2.2 (by decide)⟩

/- ------------------------------------------------------------------ -/
/- C2                                                                 -/
/- ------------------------------------------------------------------ -/

/-- C2: for every command containing a denylist substring after
    lowercasing, run_command answers success false with return code -1
    and never reaches the spawn, so the filesystem is untouched. -/
theorem c2_denylist_blocks (root : List String) (command : String)
    (cwd : Option String) (timeout : Nat) (spawn : SpawnResult)
    (h : dangerousHit command = true) :
    ∃ res, run_command root command cwd timeout spawn = Except.ok (res, false) ∧
      res.success = false ∧ res.return_code = -1 := by
  by_cases hc : cwdEscapes root cwd = true
  · exact ⟨CommandResult.mk false ""
      ("Access denied: Working directory outside project root: " ++ cwd.getD "")
      (-1) command, by simp [run_command, hc], rfl, rfl⟩
  · exact ⟨CommandResult.mk false ""
      ("Potentially dangerous command blocked: " ++ command) (-1) command,
      by simp [run_command, hc, h], rfl, rfl⟩

/-- C2 witness: a mixed-case rm -rf command is blocked before spawning. -/
theorem c2_denylist_blocks_witness :
    dangerousHit "echo hi; RM -rF /tmp" = true ∧
    ∃ res, run_command ["r"] "echo hi; RM -rF /tmp" none 30
        (SpawnResult.completed 0 "" "") = Except.ok (res, false) ∧
      res.success = false ∧ res.return_code = -1 :=
  ⟨by decide, c2_denylist_blocks ["r"] "echo hi; RM -rF /tmp" none 30
    (SpawnResult.completed 0 "" "") (by decide)⟩

/- ------------------------------------------------------------------ -/
/- C4                                                                 -/
/- ------------------------------------------------------------------ -/

/-- C4: a successful write_file followed by read_file on the same
    relativePath returns success with content exactly equal to the
    written string, and the write message reports the character count
    of the content. -/
theorem c4_write_read_roundtrip (root : List String) (fs : FS)
    (file_path content : String) (fs2 : FS) (w : FileWriteResult)
    (hw : write_file root fs file_path content true = Except.ok (fs2, w))
    (hs : w.success = true) :
    read_file root fs2 file_path = Except.ok (FileReadResult.mk true content "") ∧
    w.message = "Successfully wrote " ++ toString content.length ++
      " characters to " ++ file_path := by
  unfold write_file write_file_try at hw
  by_cases h1 : strStartsWith (compsToString (normComps (joinComps root file_path)))
      (compsToString root) = true
  · by_cases h2 : (normComps (joinComps root file_path)).dropLast.inits.any
        (fun q => fs.isFile q) = true
    · simp [h1, h2] at hw
      rw [← hw.2] at hs
      simp at hs
    · by_cases h4 : fs.isDir (normComps (joinComps root file_path)) = true
      · simp [h1, h2, h4] at hw
        rw [← hw.2] at hs
        simp at hs
      · simp [h1, h2, h4] at hw
        obtain ⟨h5, h6⟩ := hw
        subst h5
        subst h6
        refine ⟨?_, rfl⟩
        simp [read_file, read_file_try, h1, FS.pathExists, FS.isFile,
          FS.fileContent, List.find?]
  · simp [h1] at hw
    rw [← hw.2] at hs
    simp at hs

/-- C4 witness: writing hello to notes.txt and reading it back. -/
theorem c4_write_read_roundtrip_witness :
    read_file ["r"] (FS.mk [(["r", "notes.txt"], "hello")] [[], ["r"], ["r"]])
        "notes.txt" = Except.ok (FileReadResult.mk true "hello" "") ∧
    (FileWriteResult.mk true "Successfully wrote 5 characters to notes.txt"
        "").message =
      "Successfully wrote " ++ toString ("hello").length ++ " characters to " ++
        "notes.txt" :=
  c4_write_read_roundtrip ["r"] (FS.mk [] [["r"]]) "notes.txt" "hello"
    (FS.mk [(["r", "notes.txt"], "hello")] [[], ["r"], ["r"]])
    (FileWriteResult.mk true "Successfully wrote 5 characters to notes.txt" "")
    rfl rfl

/- ------------------------------------------------------------------ -/
/- C8                                                                 -/
/- ------------------------------------------------------------------ -/

/-- C8: when the spawned process exceeds the timeout, run_command
    returns success false, return code -1 and a stderr string explaining
    the timeout; the timed-out branch of subprocess.run terminates the
    child before raising, which the SpawnResult.timedOut case models. -/
theorem c8_timeout_result (root : List String) (command : String)
    (cwd : Option String) (timeout : Nat)
    (hc : cwdEscapes root cwd = false)
    (hd : dangerousHit command = false) :
    run_command root command cwd timeout SpawnResult.timedOut =
      Except.ok (CommandResult.mk false ""
        ("Command timed out after " ++ toString timeout ++ " seconds")
        (-1) command, true) := by
  simp [run_command, hc, hd]

/-- C8 witness: a sleep that overruns a one second timeout. -/
theorem c8_timeout_result_witness :
    run_command ["r"] "sleep 99" (some ".") 1 SpawnResult.timedOut =
      Except.ok (CommandResult.mk false ""
        ("Command timed out after " ++ toString 1 ++ " seconds") (-1)
        "sleep 99", true) :=
  c8_timeout_result ["r"] "sleep 99" (some ".") 1 (by decide) (by decide)

/- ------------------------------------------------------------------ -/
/- C10                                                                -/
/- ------------------------------------------------------------------ -/

/-- C10: constructing the sandbox canonicalizes the supplied
    project_root against the current directory and attempts to create
    the workspace subdirectory directly under it: when that directory
    already exists the constructor succeeds and changes nothing, and
    when the root exists and nothing blocks the name, it succeeds with
    the workspace directory present afterwards.  The stored root is a
    plain value that no later operation receives mutably. -/
theorem c10_init_workspace (cwd : List String) (fs : FS) (project_root : String) :
    (fs.isDir (normComps (joinComps cwd project_root) ++ ["workspace"]) = true →
      projectTools_init cwd fs project_root =
        Except.ok (normComps (joinComps cwd project_root), fs)) ∧
    (fs.isFile (normComps (joinComps cwd project_root) ++ ["workspace"]) = false →
      fs.isDir (normComps (joinComps cwd project_root)) = true →
      ∃ fs2, projectTools_init cwd fs project_root =
          Except.ok (normComps (joinComps cwd project_root), fs2) ∧
        fs2.isDir (normComps (joinComps cwd project_root) ++ ["workspace"]) = true) := by
  constructor
  · intro h
    simp [projectTools_init, h]
  · intro hf hr
    by_cases hd : fs.isDir (normComps (joinComps cwd project_root) ++ ["workspace"]) = true
    · exact ⟨fs, by simp [projectTools_init, hd], hd⟩
    · refine ⟨FS.mk fs.files
        ((normComps (joinComps cwd project_root) ++ ["workspace"]) :: fs.dirs),
        ?_, ?_⟩
      · simp only [Bool.not_eq_true] at hd
        simp [projectTools_init, hd, hf, hr]
      · simp [FS.isDir]

/-- C10 witness: an existing workspace directory is accepted unchanged,
    and a missing one is created. -/
theorem c10_init_workspace_witness :
    projectTools_init [] (FS.mk [] [["r"], ["r", "workspace"]]) "/r" =
      Except.ok (["r"], FS.mk [] [["r"], ["r", "workspace"]]) ∧
    (∃ fs2, projectTools_init [] (FS.mk [] [["r"]]) "/r" =
        Except.ok (["r"], fs2) ∧
      fs2.isDir (["r"] ++ ["workspace"]) = true) :=
  ⟨(c10_init_workspace [] (FS.mk [] [["r"], ["r", "workspace"]]) "/r").1 (by decide),
   (c10_init_workspace [] (FS.mk [] [["r"]]) "/r").2 (by decide) (by decide)⟩

/- ------------------------------------------------------------------ -/
/- C7                                                                 -/
/- ------------------------------------------------------------------ -/

/-- C7 is false as stated: return code -1 is not reserved to the three
    causes denylist, escaped cwd and timeout.  With a working directory
    that stays inside the root lexically but does not exist, the
    subprocess call raises FileNotFoundError and the generic exception
    handler also answers -1, without any of the three named causes. -/
theorem c7_counterexample :
    (∃ res sp, run_command ["r"] "ls" (some "sub") 30
        (SpawnResult.raised (PyExn.fileNotFoundError "/r/sub")) =
        Except.ok (res, sp) ∧
      res.return_code = -1 ∧ res.success = false ∧
      res.stderr = "Error executing command: " ++
        "[Errno 2] No such file or directory: /r/sub") ∧
    dangerousHit "ls" = false ∧
    cwdEscapes ["r"] (some "sub") = false :=
  ⟨⟨CommandResult.mk false ""
      ("Error executing command: [Errno 2] No such file or directory: /r/sub")
      (-1) "ls", false, rfl, rfl, rfl, rfl⟩, by decide, by decide⟩

/-- C7 (amended): the returned success flag holds exactly when the
    return code is zero; and a return code of -1 arises only when the
    working directory escaped, the command was denylisted, the timeout
    was exceeded, the execution raised an exception (for instance a
    missing working directory), or the completed process itself
    reported status -1 (as a signal-terminated shell does). -/
theorem c7_success_returncode (root : List String) (command : String)
    (cwd : Option String) (timeout : Nat) (spawn : SpawnResult)
    (res : CommandResult) (sp : Bool)
    (h : run_command root command cwd timeout spawn = Except.ok (res, sp)) :
    (res.success = true ↔ res.return_code = 0) ∧
    (res.return_code = -1 →
      cwdEscapes root cwd = true ∨ dangerousHit command = true ∨
      spawn = SpawnResult.timedOut ∨ (∃ e, spawn = SpawnResult.raised e) ∨
      (∃ out err, spawn = SpawnResult.completed (-1) out err)) := by
  by_cases hc : cwdEscapes root cwd = true
  · simp [run_command, hc] at h
    obtain ⟨h1, h2⟩ := h
    subst h1
    exact ⟨by simp, fun _ => Or.inl hc⟩
  · by_cases hd : dangerousHit command = true
    · simp [run_command, hc, hd] at h
      obtain ⟨h1, h2⟩ := h
      subst h1
      exact ⟨by simp, fun _ => Or.inr (Or.inl hd)⟩
    · cases spawn with
      | completed rc out err =>
        simp [run_command, hc, hd] at h
        obtain ⟨h1, h2⟩ := h
        subst h1
        constructor
        · simp [beq_iff_eq]
        · intro hrc
          simp only at hrc
          exact Or.inr (Or.inr (Or.inr (Or.inr ⟨out, err, by rw [← hrc]⟩)))
      | timedOut =>
        simp [run_command, hc, hd] at h
        obtain ⟨h1, h2⟩ := h
        subst h1
        exact ⟨by simp, fun _ => Or.inr (Or.inr (Or.inl rfl))⟩
      | raised e =>
        simp [run_command, hc, hd] at h
        obtain ⟨h1, h2⟩ := h
        subst h1
        exact ⟨by simp, fun _ => Or.inr (Or.inr (Or.inr (Or.inl ⟨e, rfl⟩)))⟩

/-- C7 witness: a completed echo with status zero. -/
theorem c7_success_returncode_witness :
    ((CommandResult.mk true "hi" "" 0 "echo hi").success = true ↔
      (CommandResult.mk true "hi" "" 0 "echo hi").return_code = 0) ∧
    ((CommandResult.mk true "hi" "" 0 "echo hi").return_code = -1 →
      cwdEscapes ["r"] none = true ∨ dangerousHit "echo hi" = true ∨
      SpawnResult.completed 0 "hi" "" = SpawnResult.timedOut ∨
      (∃ e, SpawnResult.completed 0 "hi" "" = SpawnResult.raised e) ∨
      (∃ out err, SpawnResult.completed 0 "hi" "" =
        SpawnResult.completed (-1) out err)) :=
  c7_success_returncode ["r"] "echo hi" none 30 (SpawnResult.completed 0 "hi" "")
    (CommandResult.mk true "hi" "" 0 "echo hi") true rfl

/- ------------------------------------------------------------------ -/
/- C3                                                                 -/
/- ------------------------------------------------------------------ -/

/-- C3 is false as stated: the provider resolver does not turn every
    failure into a returned result value.  With no credentials in the
    environment, resolving gpt-4 raises a ValueError that propagates
    out of the resolver boundary instead of a structured result. -/
theorem c3_counterexample :
    get_client (fun _ => none) "gpt-4" none =
      Except.error (PyExn.valueError
        "OPENAI_API_KEY not found in environment variables") := rfl

/-- C3 (amended): the four tool actions never let a fault escape: on
    every input each returns a value, the inner methods catching every
    exception of their bodies.  The provider resolver, by contrast,
    raises: whenever the selected provider's credential is absent or
    empty it throws ValueError across the resolver boundary. -/
theorem c3_no_escape_except_resolver :
    (∀ (root : List String) (fs : FS) (file_path : String),
      (tool_read_file root fs file_path).isOk = true) ∧
    (∀ (root : List String) (fs : FS) (file_path content : String),
      (tool_write_file root fs file_path content).isOk = true) ∧
    (∀ (root : List String) (fs : FS) (directory pat : String) (recursive : Bool),
      (tool_list_files root fs directory pat recursive).isOk = true) ∧
    (∀ (root : List String) (command cwd : String) (timeout : Nat)
      (spawn : SpawnResult),
      (tool_run_command root command cwd timeout spawn).isOk = true) ∧
    (∀ (env : Env) (m p : String),
      p ∈ ["groq", "openai", "moonshot", "deepseek", "google"] →
      truthy (provider_api_key env p) = false →
      get_client env m (some p) = Except.error (PyExn.valueError
        (strUpper p ++ "_API_KEY not found in environment variables"))) := by
  refine ⟨?_, ?_, ?_, ?_, ?_⟩
  · intro root fs file_path
    unfold tool_read_file read_file
    cases read_file_try root fs file_path with
    | ok r => by_cases hs : r.success = true <;> simp [hs, Except.isOk, Except.toBool]
    | error e => simp [Except.isOk, Except.toBool]
  · intro root fs file_path content
    unfold tool_write_file write_file
    cases write_file_try root fs file_path content true with
    | ok r => by_cases hs : r.2.success = true <;> simp [hs, Except.isOk, Except.toBool]
    | error e => simp [Except.isOk, Except.toBool]
  · intro root fs directory pat recursive
    unfold tool_list_files list_files
    cases list_files_try root fs directory pat recursive with
    | ok r => by_cases hs : r.success = true <;> simp [hs, Except.isOk, Except.toBool]
    | error e => simp [Except.isOk, Except.toBool]
  · intro root command cwd timeout spawn
    unfold tool_run_command run_command
    by_cases hc : cwdEscapes root (some cwd) = true
    · simp [hc, Except.isOk, Except.toBool]
    · by_cases hd : dangerousHit command = true
      · simp [hc, hd, Except.isOk, Except.toBool]
      · cases spawn <;> simp [hc, hd, Except.isOk, Except.toBool]
  · intro env m p hp hk
    fin_cases hp <;>
      simp_all [get_client, selected_provider, get_openai_compatible_client,
        get_google_client, providers, provider_api_key, truthy, strUpper]

/-- C3 witness: the read tool answers a value on a concrete input, and
    the resolver raises for a concrete provider without credentials. -/
theorem c3_no_escape_except_resolver_witness :
    (tool_read_file ["r"] (FS.mk [] []) "a.txt").isOk = true ∧
    get_client (fun _ => none) "m" (some "groq") = Except.error (PyExn.valueError
      (strUpper "groq" ++ "_API_KEY not found in environment variables")) :=
  ⟨c3_no_escape_except_resolver.1 ["r"] (FS.mk [] []) "a.txt",
   c3_no_escape_except_resolver.2.2.2.2 (fun _ => none) "m" "groq" (by decide)
     (by decide)⟩

/- ------------------------------------------------------------------ -/
/- C5                                                                 -/
/- ------------------------------------------------------------------ -/

/-- Catalog key membership agrees with the any-form over mapped keys. -/
theorem modelsContain_map (m : String) (l : List (String × String)) :
    (l.map Prod.fst).any (fun n => n == m) = modelsContain l m := by
  induction l with
  | nil => rfl
  | cons a l ih => simp [modelsContain, List.any_cons, ih]

/-- C5: the provider resolution of the source agrees everywhere with
    the policy of section 4.6 of the spec: an explicit provider is used
    directly; otherwise the first provider in the registry order groq,
    openai, moonshot, deepseek, google whose catalog holds the model id
    exactly; otherwise the case-insensitive substring heuristics gemini
    to google, gpt to openai, llama or mixtral to groq, moonshot or
    kimi to moonshot, deepseek to deepseek; otherwise groq. -/
theorem c5_resolution_policy (env : Env) (m : String) (p : String) :
    selected_provider env m (some p) = p ∧
    selected_provider env m none = detect_provider env m ∧
    detect_provider env m = resolveProviderSpec m := by
  refine ⟨rfl, rfl, ?_⟩
  have mc1 : modelCatalog "groq" = groqModels.map Prod.fst := rfl
  have mc2 : modelCatalog "openai" = openaiModels.map Prod.fst := rfl
  have mc3 : modelCatalog "moonshot" = moonshotModels.map Prod.fst := rfl
  have mc4 : modelCatalog "deepseek" = deepseekModels.map Prod.fst := rfl
  have mc5 : modelCatalog "google" = googleModels.map Prod.fst := rfl
  unfold detect_provider resolveProviderSpec
  simp only [providers, List.find?, mc1, mc2, mc3, mc4, mc5, modelsContain_map]
  cases h1 : modelsContain groqModels m <;>
  cases h2 : modelsContain openaiModels m <;>
  cases h3 : modelsContain moonshotModels m <;>
  cases h4 : modelsContain deepseekModels m <;>
  cases h5 : modelsContain googleModels m <;>
  rfl

/- ------------------------------------------------------------------ -/
/- C6                                                                 -/
/- ------------------------------------------------------------------ -/

/-- Helper: on a provider present in the table, the OpenAI-compatible
    constructor raises ValueError exactly when the stored credential is
    falsy, and otherwise builds a client carrying that credential. -/
theorem oc_client_cases (env : Env) (m prov : String)
    (pr : String × ProviderEntry)
    (hfind : (providers env).find? (fun x => x.1 == prov) = some pr) :
    (truthy pr.2.api_key = false →
      get_openai_compatible_client env m prov = Except.error (PyExn.valueError
        (strUpper prov ++ "_API_KEY not found in environment variables"))) ∧
    (∀ cfg, get_openai_compatible_client env m prov = Except.ok cfg →
      cfg.api_key ≠ "" ∧ some cfg.api_key = pr.2.api_key) := by
  have hred : get_openai_compatible_client env m prov =
      if truthy pr.2.api_key = true then
        Except.ok (ClientCfg.mk m (pr.2.api_key.getD "") pr.2.base_url
          (ModelInfoFlags.mk false true true true))
      else Except.error (PyExn.valueError
        (strUpper prov ++ "_API_KEY not found in environment variables")) := by
    unfold get_openai_compatible_client
    rw [hfind]
  rw [hred]
  constructor
  · intro hk
    simp [hk]
  · intro cfg hcfg
    by_cases ht : truthy pr.2.api_key = true
    · rw [if_pos ht] at hcfg
      cases hk : pr.2.api_key with
      | none => rw [hk] at ht; simp [truthy] at ht
      | some s =>
        rw [hk] at ht
        simp only [truthy, decide_eq_true_eq] at ht
        simp only [Except.ok.injEq] at hcfg
        rw [← hcfg, hk]
        exact ⟨by simpa using ht, rfl⟩
    · simp only [Bool.not_eq_true] at ht
      rw [if_neg (by simp [ht])] at hcfg
      cases hcfg

/-- Helper: the Google constructor likewise raises exactly when the
    google credential is falsy and otherwise carries it. -/
theorem google_client_cases (env : Env) (m : String) :
    (truthy (env "GOOGLE_API_KEY") = false →
      get_google_client env m = Except.error (PyExn.valueError
        "GOOGLE_API_KEY not found in environment variables")) ∧
    (∀ cfg, get_google_client env m = Except.ok cfg →
      cfg.api_key ≠ "" ∧ some cfg.api_key = env "GOOGLE_API_KEY") := by
  unfold get_google_client
  constructor
  · intro hk
    simp [hk]
  · intro cfg hcfg
    by_cases ht : truthy (env "GOOGLE_API_KEY") = true
    · rw [if_pos ht] at hcfg
      cases hk : env "GOOGLE_API_KEY" with
      | none => rw [hk] at ht; simp [truthy] at ht
      | some s =>
        rw [hk] at ht
        simp only [truthy, decide_eq_true_eq] at ht
        simp only [Except.ok.injEq] at hcfg
        rw [← hcfg, hk]
        exact ⟨by simpa using ht, rfl⟩
    · simp only [Bool.not_eq_true] at ht
      rw [if_neg (by simp [ht])] at hcfg
      cases hcfg

/-- C6: once the resolver has selected a provider, an absent or empty
    credential for that provider makes resolution fail with the missing
    credential ValueError; a successful resolution never carries an
    empty credential and always carries exactly the selected provider's
    registry credential, so resolution never falls through to another
    provider. -/
theorem c6_selected_credential (env : Env) (m : String) (p : Option String)
    (hmem : selected_provider env m p ∈
      ["groq", "openai", "moonshot", "deepseek", "google"]) :
    (truthy (provider_api_key env (selected_provider env m p)) = false →
      get_client env m p = Except.error (PyExn.valueError
        (strUpper (selected_provider env m p) ++
          "_API_KEY not found in environment variables"))) ∧
    (∀ cfg, get_client env m p = Except.ok cfg →
      cfg.api_key ≠ "" ∧
      some cfg.api_key = provider_api_key env (selected_provider env m p)) := by
  simp only [List.mem_cons, List.not_mem_nil, or_false] at hmem
  rcases hmem with hs | hs | hs | hs | hs
  · rw [hs]
    have hgc : get_client env m p = get_openai_compatible_client env m "groq" := by
      simp [get_client, hs]
    refine ⟨fun hk => ?_, fun cfg hcfg => ?_⟩
    · rw [hgc]
      exact (oc_client_cases env m "groq" ("groq", ProviderEntry.mk
        (some "https://api.groq.com/openai/v1") (env "GROQ_API_KEY") groqModels)
        rfl).1 hk
    · rw [hgc] at hcfg
      exact (oc_client_cases env m "groq" ("groq", ProviderEntry.mk
        (some "https://api.groq.com/openai/v1") (env "GROQ_API_KEY") groqModels)
        rfl).2 cfg hcfg
  · rw [hs]
    have hgc : get_client env m p = get_openai_compatible_client env m "openai" := by
      simp [get_client, hs]
    refine ⟨fun hk => ?_, fun cfg hcfg => ?_⟩
    · rw [hgc]
      exact (oc_client_cases env m "openai" ("openai", ProviderEntry.mk
        (some "https://api.openai.com/v1") (env "OPEN_AI_KEY") openaiModels)
        rfl).1 hk
    · rw [hgc] at hcfg
      exact (oc_client_cases env m "openai" ("openai", ProviderEntry.mk
        (some "https://api.openai.com/v1") (env "OPEN_AI_KEY") openaiModels)
        rfl).2 cfg hcfg
  · rw [hs]
    have hgc : get_client env m p = get_openai_compatible_client env m "moonshot" := by
      simp [get_client, hs]
    refine ⟨fun hk => ?_, fun cfg hcfg => ?_⟩
    · rw [hgc]
      exact (oc_client_cases env m "moonshot" ("moonshot", ProviderEntry.mk
        (some "https://api.moonshot.cn/v1") (env "OPEN_AI_KEY") moonshotModels)
        rfl).1 hk
    · rw [hgc] at hcfg
      exact (oc_client_cases env m "moonshot" ("moonshot", ProviderEntry.mk
        (some "https://api.moonshot.cn/v1") (env "OPEN_AI_KEY") moonshotModels)
        rfl).2 cfg hcfg
  · rw [hs]
    have hgc : get_client env m p = get_openai_compatible_client env m "deepseek" := by
      simp [get_client, hs]
    refine ⟨fun hk => ?_, fun cfg hcfg => ?_⟩
    · rw [hgc]
      exact (oc_client_cases env m "deepseek" ("deepseek", ProviderEntry.mk
        (some "https://api.deepseek.com/v1") (env "DEEPKEY_API_KEY") deepseekModels)
        rfl).1 hk
    · rw [hgc] at hcfg
      exact (oc_client_cases env m "deepseek" ("deepseek", ProviderEntry.mk
        (some "https://api.deepseek.com/v1") (env "DEEPKEY_API_KEY") deepseekModels)
        rfl).2 cfg hcfg
  · rw [hs]
    have hgc : get_client env m p = get_google_client env m := by
      simp [get_client, hs]
    refine ⟨fun hk => ?_, fun cfg hcfg => ?_⟩
    · rw [hgc]
      exact (google_client_cases env m).1 hk
    · rw [hgc] at hcfg
      exact (google_client_cases env m).2 cfg hcfg

/-- C6 witness: resolving gpt-4 with no explicit provider and an empty
    environment selects openai and fails with the missing credential
    error. -/
theorem c6_selected_credential_witness :
    get_client (fun _ => none) "gpt-4" none = Except.error (PyExn.valueError
      (strUpper (selected_provider (fun _ => none) "gpt-4" none) ++
        "_API_KEY not found in environment variables")) :=
  (c6_selected_credential (fun _ => none) "gpt-4" none (by decide)).1 (by decide)

/- ------------------------------------------------------------------ -/
/- C9                                                                 -/
/- ------------------------------------------------------------------ -/

